import Mathlib

/-!
Shallow embedding of the saved-object import reconciliation core
(`createSavedObjects`) together with the fixtures of its test suite
(second document of `x-pack/plugins/security_solution/public/shared_imports.ts`).
The implementation module `create_saved_objects.ts` is absent from the
source tree (only its test suite is present), so the reconciler itself is
modelled from the specification; where the test suite pins the behaviour
down exactly (the expected bulk-create arguments, the mocked store
response, the expected return value) the model is validated against those
embedded fixtures.
-/

namespace SavedObjectsImport

/-- A saved-object reference triple `{name, type, id}`. -/
structure Reference where
  name : String
  type : String
  id : String
deriving DecidableEq, Repr

/-- An import object or transformed document: `type`, `id`, an opaque
`attributes` payload (modelled as a string), the ordered `references`
sequence and an optional `originId`.  A TypeScript object that has no
`originId` field is modelled with `originId = none`. -/
structure SavedObjectDoc where
  type : String
  id : String
  attributes : String
  references : List Reference
  originId : Option String
deriving DecidableEq, Repr

/-- One entry of the import-identifier map: the identifier to use when
creating (`id`; the specification calls it `newId`) and the
`omitOriginId` flag, whose absence in the source literal means `false`. -/
structure IdentitySubstitutionEntry where
  id : String
  omitOriginId : Bool := false
deriving DecidableEq, Repr

/-- The import-identifier map, keyed by the composite string `type:id`. -/
abbrev ImportIdMap := List (String × IdentitySubstitutionEntry)

/-- TypeScript truthiness of an optional string: `undefined` and the
empty string are both falsy. -/
def strTruthy : Option String → Bool
  | some s => s != ""
  | none => false

/-- The payload of a prior (accumulated) import error.  Only the `type`
tag of the payload ever influences the reconciler, so the kind-specific
companion fields of the source fixtures (`destinations`, `references`,
`blocking`, `message`, `statusCode`) are not modelled. -/
structure ImportErrorPayload where
  type : String
deriving DecidableEq, Repr

/-- A prior import error record `{type, id, error}`. -/
structure SavedObjectsImportError where
  type : String
  id : String
  error : ImportErrorPayload
deriving DecidableEq, Repr

/-- The error payload carried by a failed creation outcome.  The source
builds it with `SavedObjectsErrorHelpers.createConflictError(type, id)`,
whose Boom payload is `{statusCode: 409, error: 'Conflict', message:
'Saved object [type/id] conflict'}`; the optional
`metadata.isNotOverwritable` flag marks unresolvable conflicts. -/
structure StoreErrorPayload where
  statusCode : Nat
  error : String
  message : String
  isNotOverwritable : Option Bool
deriving DecidableEq, Repr

/-- One element of the store's bulk-create response (and, after the remap
phase, one reconciled outcome).  Optional fields model TypeScript fields
that may be absent from the record. -/
structure Outcome where
  type : String
  id : String
  attributes : Option String
  references : Option (List Reference)
  originId : Option String
  version : Option String
  updated_at : Option String
  namespaces : Option (List String)
  error : Option StoreErrorPayload
  destinationId : Option String
deriving DecidableEq, Repr

/-- The options object forwarded to the store's bulk-create capability.
It has exactly two fields.  The source field `namespace` is a reserved
word in Lean and is rendered `ns` throughout this development. -/
structure BulkCreateOptions where
  ns : Option String
  overwrite : Option Bool
deriving DecidableEq, Repr

/-- A record of one invocation of the store's bulk-create capability:
the documents passed and the options passed. -/
structure BulkCall where
  objects : List SavedObjectDoc
  options : BulkCreateOptions
deriving DecidableEq, Repr

/-- The options argument of `createSavedObjects`: the store capability
(`bulkCreate`, the `savedObjectsClient.bulkCreate` of the source), the
identifier map, and the caller options `namespace` (rendered `ns`) and
`overwrite`. -/
structure CreateSavedObjectsOptions where
  bulkCreate : List SavedObjectDoc → BulkCreateOptions → List Outcome
  importIdMap : ImportIdMap
  ns : Option String
  overwrite : Option Bool

/-- A reconciled error record: the object `type`, the original import
`id`, the store error payload, and `destinationId` when a different
identifier was used for the creation attempt. -/
structure ImportErrorRecord where
  type : String
  id : String
  error : StoreErrorPayload
  destinationId : Option String
deriving DecidableEq, Repr

/-- The value returned by `createSavedObjects`. -/
structure CreateSavedObjectsResult where
  createdObjects : List Outcome
  errors : List ImportErrorRecord
deriving DecidableEq, Repr

/-- A run of the reconciler: the returned result paired with the list of
bulk-create invocations it performed (empty when the store was never
contacted). -/
structure ReconcileRun where
  result : CreateSavedObjectsResult
  calls : List BulkCall
deriving DecidableEq, Repr

/-- Modelled from the spec: classification of a prior error as
*resolvable* — its kind is `conflict`, `ambiguous_conflict` or
`missing_references` (all other kinds are unresolvable). -/
def isResolvableError (e : SavedObjectsImportError) : Bool :=
  (["conflict", "ambiguous_conflict", "missing_references"]).contains e.error.type

/-- Modelled from the spec: the composite-key lookup
`map.get(type + ":" + id)` used by the transform phase. -/
def lookupKey (type id : String) : String :=
  type ++ ":" ++ id

/-- Modelled from the spec: look an import object up in the identifier
map by its composite key. -/
def lookupSub (m : ImportIdMap) (o : SavedObjectDoc) : Option IdentitySubstitutionEntry :=
  m.lookup (lookupKey o.type o.id)

/-- Modelled from the spec: per-reference identifier rewrite of the
transform phase of the absent `create_saved_objects.ts`.  The
specification text says references pass through verbatim, but the source
test expectations (`getExpectedBulkCreateArgsObjects`, which expects the
reference to `multi:id-3` to be sent with id `id-foo`) show that each
reference whose `type:id` has an import-id-map entry has its `id`
rewritten to that entry's identifier; the model follows the source. -/
def transformReference (m : ImportIdMap) (r : Reference) : Reference :=
  match m.lookup (lookupKey r.type r.id) with
  | some e => { r with id := e.id }
  | none => r

/-- Modelled from the spec: the per-object transform phase of the absent
`create_saved_objects.ts`.  If the object's `type:id` has a map entry,
its identifier becomes the entry's id and its `originId` becomes `none`
when `omitOriginId` is set, otherwise the object's own `originId`, or,
when absent, the object's original import identifier.  Objects without
an entry keep their identifier and `originId`.  References are rewritten
through `transformReference` in either case (see its comment). -/
def transformObject (m : ImportIdMap) (o : SavedObjectDoc) : SavedObjectDoc :=
  match lookupSub m o with
  | some e =>
      { o with
        id := e.id
        references := o.references.map (transformReference m)
        originId := if e.omitOriginId then none else some (o.originId.getD o.id) }
  | none =>
      { o with references := o.references.map (transformReference m) }

/-- Modelled from the spec: the transformed document sequence sent to the
store, positionally 1:1 with the input objects. -/
def sentDocs (opts : CreateSavedObjectsOptions) (objects : List SavedObjectDoc) : List SavedObjectDoc :=
  objects.map (transformObject opts.importIdMap)

/-- Modelled from the spec: the store's response to the single
bulk-create invocation. -/
def storeResponse (opts : CreateSavedObjectsOptions) (objects : List SavedObjectDoc) : List Outcome :=
  opts.bulkCreate (sentDocs opts objects) { ns := opts.ns, overwrite := opts.overwrite }

/-- Modelled from the spec: the remap step for one outcome.  When the
identifier used in the create call differs from the original import
identifier, the outcome's visible identifier is overwritten with the
original one and a `destinationId` equal to the identifier actually used
is attached; otherwise the outcome passes through unchanged. -/
def remapOutcome (original : SavedObjectDoc) (sentId : String) (outcome : Outcome) : Outcome :=
  if sentId = original.id then outcome
  else { outcome with id := original.id, destinationId := some sentId }

/-- Modelled from the spec: positional remap of the store response
against the original objects and the documents actually sent. -/
def remap : List SavedObjectDoc → List SavedObjectDoc → List Outcome → List Outcome
  | o :: os, d :: ds, r :: rs => remapOutcome o d.id r :: remap os ds rs
  | _, _, _ => []

/-- Modelled from the spec: the remapped outcome sequence of one
reconciliation run. -/
def remappedResults (opts : CreateSavedObjectsOptions) (objects : List SavedObjectDoc) : List Outcome :=
  remap objects (sentDocs opts objects) (storeResponse opts objects)

/-- Modelled from the spec: the Result Classifier collaborator
(`extractErrors`, whose module is also absent from the source tree).  It
keeps, for every remapped outcome that carries an error payload, a typed
error record retaining the `type`, the (already remapped, hence
original) `id`, the error payload, and the `destinationId` when one was
attached. -/
def classifyErrors (remapped : List Outcome) : List ImportErrorRecord :=
  remapped.filterMap (fun o =>
    o.error.map (fun e =>
      { type := o.type, id := o.id, error := e, destinationId := o.destinationId }))

/-- Modelled from the spec: the reconciler `createSavedObjects(objects,
accumulatedErrors, options)`.  It exits early with an empty result when
there are no objects, exits early with an empty result (without
contacting the store) when any accumulated error is resolvable, and
otherwise performs exactly one bulk-create invocation, remaps the
response to the original identifiers, and partitions it into created
objects and error records. -/
def createSavedObjects (objects : List SavedObjectDoc)
    (accumulatedErrors : List SavedObjectsImportError)
    (opts : CreateSavedObjectsOptions) : ReconcileRun :=
  if objects.isEmpty then
    { result := { createdObjects := [], errors := [] }, calls := [] }
  else if accumulatedErrors.any isResolvableError then
    { result := { createdObjects := [], errors := [] }, calls := [] }
  else
    let remapped := remappedResults opts objects
    { result :=
        { createdObjects := remapped.filter (fun o => o.error.isNone)
          errors := classifyErrors remapped }
      calls := [{ objects := sentDocs opts objects
                  options := { ns := opts.ns, overwrite := opts.overwrite } }] }

/-- Source fixture: `createObject(type, id, originId?)`.  The spread
`...(originId && { originId })` adds the field only when the argument is
truthy, so an empty string yields no `originId` field. -/
def createObject (type id : String) (originId : Option String := none) : SavedObjectDoc :=
  { type := type
    id := id
    attributes := ""
    references :=
      [ { name := "name-1", type := "other-type", id := "other-id" },
        { name := "name-2", type := "multi", id := "id-1" },
        { name := "name-3", type := "multi", id := "id-3" } ]
    originId := if strTruthy originId then originId else none }

/-- Source fixture `MULTI_NS_TYPE`. -/
def MULTI_NS_TYPE : String := "multi"

/-- Source fixture `OTHER_TYPE`. -/
def OTHER_TYPE : String := "other"

def obj1 : SavedObjectDoc := createObject MULTI_NS_TYPE "id-1" (some "originId-a")

def obj2 : SavedObjectDoc := createObject MULTI_NS_TYPE "id-2" (some "originId-b")

def obj3 : SavedObjectDoc := createObject MULTI_NS_TYPE "id-3" (some "originId-c")

def obj4 : SavedObjectDoc := createObject MULTI_NS_TYPE "id-4" (some "originId-d")

def obj5 : SavedObjectDoc := createObject MULTI_NS_TYPE "id-5" (some "originId-e")

def obj6 : SavedObjectDoc := createObject MULTI_NS_TYPE "id-6"

def obj7 : SavedObjectDoc := createObject MULTI_NS_TYPE "id-7"

def obj8 : SavedObjectDoc := createObject MULTI_NS_TYPE "id-8"

def obj9 : SavedObjectDoc := createObject MULTI_NS_TYPE "id-9"

def obj10 : SavedObjectDoc := createObject OTHER_TYPE "id-10" (some "originId-f")

def obj11 : SavedObjectDoc := createObject OTHER_TYPE "id-11" (some "originId-g")

def obj12 : SavedObjectDoc := createObject OTHER_TYPE "id-12"

def obj13 : SavedObjectDoc := createObject OTHER_TYPE "id-13"

def importId3 : String := "id-foo"

def importId4 : String := "id-bar"

def importId8 : String := "id-baz"

/-- Source fixture: the import-identifier map of the test suite. -/
def importIdMap : ImportIdMap :=
  [ (lookupKey obj3.type obj3.id, { id := importId3, omitOriginId := true }),
    (lookupKey obj4.type obj4.id, { id := importId4 }),
    (lookupKey obj8.type obj8.id, { id := importId8 }) ]

/-- Source fixture: the thirteen-object batch `objs`. -/
def objs : List SavedObjectDoc :=
  [obj1, obj2, obj3, obj4, obj5, obj6, obj7, obj8, obj9, obj10, obj11, obj12, obj13]

/-- Source fixture `getExpectedBulkCreateArgsObjects(objects, retry?)`:
the arguments the test expects `bulkCreate` to receive.  Note the
expected references list carries `id-foo` for `name-3`, and the spread
`...((originId || retry) && { originId: originId || id })` adds an
`originId` only when the input's is truthy or this is a retry. -/
def getExpectedBulkCreateArgsObjects (objects : List SavedObjectDoc) (retry : Bool) : List SavedObjectDoc :=
  objects.map (fun o =>
    { type := o.type
      id := if retry then "new-id-for-" ++ o.id else o.id
      attributes := o.attributes
      references :=
        [ { name := "name-1", type := "other-type", id := "other-id" },
          { name := "name-2", type := MULTI_NS_TYPE, id := "id-1" },
          { name := "name-3", type := MULTI_NS_TYPE, id := "id-foo" } ]
      originId :=
        if strTruthy o.originId || retry then
          (if strTruthy o.originId then o.originId else some o.id)
        else none })

/-- Source fixture: the Boom payload of
`SavedObjectsErrorHelpers.createConflictError(type, id)`. -/
def conflictPayload (type id : String) : StoreErrorPayload :=
  { statusCode := 409
    error := "Conflict"
    message := "Saved object [" ++ type ++ "/" ++ id ++ "] conflict"
    isNotOverwritable := none }

/-- Source fixture: the payload of an unresolvable conflict, i.e. the
conflict payload with `metadata.isNotOverwritable = true`. -/
def unresolvablePayload (type id : String) : StoreErrorPayload :=
  { conflictPayload type id with isNotOverwritable := some true }

/-- Source fixture `getResultMock.success(object, options)`. -/
def resultMockSuccess (o : SavedObjectDoc) (ns : Option String) : Outcome :=
  { type := o.type
    id := o.id
    attributes := some o.attributes
    references := some o.references
    originId := if strTruthy o.originId then o.originId else none
    version := some "some-version"
    updated_at := some "some-date"
    namespaces := some [ns.getD "default"]
    error := none
    destinationId := none }

/-- Source fixture `getResultMock.conflict(type, id)`. -/
def resultMockConflict (type id : String) : Outcome :=
  { type := type
    id := id
    attributes := none
    references := none
    originId := none
    version := none
    updated_at := none
    namespaces := none
    error := some (conflictPayload type id)
    destinationId := none }

/-- Source fixture `getResultMock.unresolvableConflict(type, id)`. -/
def resultMockUnresolvableConflict (type id : String) : Outcome :=
  { resultMockConflict type id with error := some (unresolvablePayload type id) }

/-- Source fixture `setupMockResults`: the saved objects the mocked
store resolves with (one per input object, positionally aligned). -/
def setupMockResults (ns : Option String) : List Outcome :=
  [ resultMockSuccess obj1 ns,
    resultMockConflict obj2.type obj2.id,
    resultMockConflict obj3.type importId3,
    resultMockConflict obj4.type importId4,
    resultMockUnresolvableConflict obj5.type obj5.id,
    resultMockSuccess obj6 ns,
    resultMockConflict obj7.type obj7.id,
    resultMockConflict obj8.type importId8,
    resultMockUnresolvableConflict obj9.type obj9.id,
    resultMockSuccess obj10 ns,
    resultMockConflict obj11.type obj11.id,
    resultMockSuccess obj12 ns,
    resultMockConflict obj13.type obj13.id ]

/-- Source fixture: the options of `setupOptions()` with the mocked
store of `setupMockResults` and an undefined namespace and overwrite. -/
def fixtureOptions : CreateSavedObjectsOptions :=
  { bulkCreate := fun _ _ => setupMockResults none
    importIdMap := importIdMap
    ns := none
    overwrite := none }

/-- Source fixture: the resolvable prior errors of the test suite. -/
def resolvableErrorsFixture : List SavedObjectsImportError :=
  [ { type := "foo", id := "foo-id", error := { type := "conflict" } },
    { type := "bar", id := "bar-id", error := { type := "ambiguous_conflict" } },
    { type := "baz", id := "baz-id", error := { type := "missing_references" } } ]

/-- Source fixture: the unresolvable prior errors of the test suite. -/
def unresolvableErrorsFixture : List SavedObjectsImportError :=
  [ { type := "qux", id := "qux-id", error := { type := "unsupported_type" } },
    { type := "quux", id := "quux-id", error := { type := "unknown" } } ]

/-- Source fixture `x3` of `testBulkCreateObjects`:
`{...obj3, id: importId3, originId: undefined}`. -/
def x3 : SavedObjectDoc := { obj3 with id := importId3, originId := none }

/-- Source fixture `x4` of `testBulkCreateObjects`:
`{...obj4, id: importId4}`. -/
def x4 : SavedObjectDoc := { obj4 with id := importId4 }

/-- Source fixture `x8` of `testBulkCreateObjects`:
`{...obj8, id: importId8, originId: obj8.id}`. -/
def x8 : SavedObjectDoc := { obj8 with id := importId8, originId := some obj8.id }

/-- Source fixture `argObjs` of `testBulkCreateObjects`. -/
def argObjs : List SavedObjectDoc :=
  [obj1, obj2, x3, x4, obj5, obj6, obj7, x8, obj9, obj10, obj11, obj12, obj13]

/-- Transforming an object always maps `transformReference` over its
references, whether or not the object itself has a map entry. -/
theorem transformObject_references (m : ImportIdMap) (o : SavedObjectDoc) :
    (transformObject m o).references = o.references.map (transformReference m) := by
  cases hl : lookupSub m o <;> simp [transformObject, hl]

/-- When the batch is non-empty and no accumulated error is resolvable,
the reconciler performs exactly the one bulk-create call and returns the
partitioned remapped results. -/
theorem createSavedObjects_proceeds (objects : List SavedObjectDoc)
    (errors : List SavedObjectsImportError) (opts : CreateSavedObjectsOptions)
    (hne : objects ≠ []) (hunres : ∀ e ∈ errors, isResolvableError e = false) :
    createSavedObjects objects errors opts =
      { result :=
          { createdObjects := (remappedResults opts objects).filter (fun o => o.error.isNone)
            errors := classifyErrors (remappedResults opts objects) }
        calls := [{ objects := sentDocs opts objects
                    options := { ns := opts.ns, overwrite := opts.overwrite } }] } := by
  have h1 : objects.isEmpty = false := by
    cases objects with
    | nil => exact absurd rfl hne
    | cons a l => rfl
  have h2 : errors.any isResolvableError = false := by
    simp only [List.any_eq_false]
    intro e he
    simp [hunres e he]
  simp [createSavedObjects, h1, h2]

/-- When some accumulated error is resolvable, the reconciler returns an
empty result without any bulk-create call. -/
theorem createSavedObjects_gated (objects : List SavedObjectDoc)
    (errors : List SavedObjectsImportError) (opts : CreateSavedObjectsOptions)
    (h : ∃ e ∈ errors, isResolvableError e = true) :
    createSavedObjects objects errors opts
      = { result := { createdObjects := [], errors := [] }, calls := [] } := by
  obtain ⟨e, he, hres⟩ := h
  cases h1 : objects.isEmpty with
  | true => simp [createSavedObjects, h1]
  | false =>
    have h2 : errors.any isResolvableError = true := List.any_eq_true.mpr ⟨e, he, hres⟩
    simp [createSavedObjects, h1, h2]

/-- Pointwise description of the remap phase: the element at index `i`
of `remap os ds rs` is the remap of the aligned triple at `i`. -/
theorem remap_getElem? (os ds : List SavedObjectDoc) (rs : List Outcome) (i : Nat)
    (o d : SavedObjectDoc) (r : Outcome)
    (ho : os[i]? = some o) (hd : ds[i]? = some d) (hr : rs[i]? = some r) :
    (remap os ds rs)[i]? = some (remapOutcome o d.id r) := by
  induction os generalizing ds rs i with
  | nil => simp at ho
  | cons a as ih =>
    cases ds with
    | nil => simp at hd
    | cons b bs =>
      cases rs with
      | nil => simp at hr
      | cons c cs =>
        cases i with
        | zero =>
          simp only [List.getElem?_cons_zero, Option.some.injEq] at ho hd hr
          subst ho; subst hd; subst hr
          simp only [remap, List.getElem?_cons_zero]
        | succ n =>
          simp only [List.getElem?_cons_succ] at ho hd hr
          simp only [remap, List.getElem?_cons_succ]
          exact ih bs cs n ho hd hr

/-- The document sequence sent to the store, pointwise. -/
theorem sentDocs_getElem? (opts : CreateSavedObjectsOptions) (objects : List SavedObjectDoc)
    (i : Nat) (hi : i < objects.length) :
    (sentDocs opts objects)[i]? = some (transformObject opts.importIdMap objects[i]) := by
  simp only [sentDocs, List.getElem?_map, List.getElem?_eq_getElem hi, Option.map_some']

/-- The model's single bulk-create invocation on the thirteen-object
fixture coincides exactly with the source test expectation
(`expectBulkCreateArgs.objects(1, argObjs)` together with
`expectBulkCreateArgs.options`), validating the modelled transform phase
against the source test suite. -/
theorem bulk_create_args_match_source_expectation :
    (createSavedObjects objs [] fixtureOptions).calls
      = [{ objects := getExpectedBulkCreateArgsObjects argObjs false,
           options := { ns := none, overwrite := none } }] := by decide

/-- Claim C1: for every batch and every prior-error list containing at
least one error of kind `conflict`, `ambiguous_conflict` or
`missing_references`, `createSavedObjects` never invokes the store's
bulk-create capability and returns an empty result, regardless of the
batch contents. -/
theorem resolvable_error_gate (objects : List SavedObjectDoc)
    (errors : List SavedObjectsImportError) (opts : CreateSavedObjectsOptions)
    (h : ∃ e ∈ errors, isResolvableError e = true) :
    createSavedObjects objects errors opts
      = { result := { createdObjects := [], errors := [] }, calls := [] } :=
  createSavedObjects_gated objects errors opts h

/-- Witness for C1: on the thirteen-object fixture with the resolvable
prior errors of the test suite, the reconciler makes no call and returns
an empty result. -/
theorem resolvable_error_gate_witness :
    createSavedObjects objs resolvableErrorsFixture fixtureOptions
      = { result := { createdObjects := [], errors := [] }, calls := [] } :=
  resolvable_error_gate objs resolvableErrorsFixture fixtureOptions (by decide)

/-- Claim C4: on an empty batch, `createSavedObjects` returns
`{createdObjects: [], errors: []}` and never invokes the store's
bulk-create capability. -/
theorem empty_batch_idempotence (errors : List SavedObjectsImportError)
    (opts : CreateSavedObjectsOptions) :
    createSavedObjects [] errors opts
      = { result := { createdObjects := [], errors := [] }, calls := [] } := rfl

/-- Claim C7: for every non-empty batch and every prior-error list whose
errors are all of unresolvable kinds (or no errors at all),
`createSavedObjects` invokes the store's bulk-create capability exactly
once. -/
theorem unresolvable_error_passthrough (objects : List SavedObjectDoc)
    (errors : List SavedObjectsImportError) (opts : CreateSavedObjectsOptions)
    (hne : objects ≠ []) (hunres : ∀ e ∈ errors, isResolvableError e = false) :
    (createSavedObjects objects errors opts).calls.length = 1 := by
  rw [createSavedObjects_proceeds objects errors opts hne hunres]
  rfl

/-- Witness for C7: on the thirteen-object fixture with the unresolvable
prior errors of the test suite, exactly one bulk-create call is made. -/
theorem unresolvable_error_passthrough_witness :
    (createSavedObjects objs unresolvableErrorsFixture fixtureOptions).calls.length = 1 :=
  unresolvable_error_passthrough objs unresolvableErrorsFixture fixtureOptions
    (by decide) (by decide)

/-- Claim C8: every bulk-create call made by `createSavedObjects`
receives as its options argument exactly `{namespace, overwrite}` from
the caller options (the `BulkCreateOptions` structure has no other
field, so nothing else is forwarded). -/
theorem options_forwarding (objects : List SavedObjectDoc)
    (errors : List SavedObjectsImportError) (opts : CreateSavedObjectsOptions)
    (c : BulkCall) (hc : c ∈ (createSavedObjects objects errors opts).calls) :
    c.options = { ns := opts.ns, overwrite := opts.overwrite } := by
  by_cases h1 : objects = []
  · subst h1
    simp [createSavedObjects] at hc
  · by_cases h2 : ∀ e ∈ errors, isResolvableError e = false
    · rw [createSavedObjects_proceeds objects errors opts h1 h2] at hc
      simp only [List.mem_singleton] at hc
      rw [hc]
    · have h3 : ∃ e ∈ errors, isResolvableError e = true := by
        push_neg at h2
        obtain ⟨e, he, hb⟩ := h2
        exact ⟨e, he, by simpa using hb⟩
      rw [createSavedObjects_gated objects errors opts h3] at hc
      simp at hc

/-- Witness for C8: the single call of the fixture run carries exactly
the fixture's namespace and overwrite. -/
theorem options_forwarding_witness :
    ({ objects := sentDocs fixtureOptions objs,
       options := { ns := none, overwrite := none } } : BulkCall).options
      = { ns := none, overwrite := none } :=
  options_forwarding objs [] fixtureOptions
    { objects := sentDocs fixtureOptions objs,
      options := { ns := none, overwrite := none } } (by decide)

/-- Claim C6: an object with no `originId`, covered by a substitution
entry without `omitOriginId`, is sent to the store with its identifier
set to the entry's new id and an `originId` equal to its own original
caller-supplied identifier. -/
theorem bare_substitution_assigns_origin (objects : List SavedObjectDoc)
    (opts : CreateSavedObjectsOptions) (i : Nat) (hi : i < objects.length)
    (e : IdentitySubstitutionEntry)
    (horig : objects[i].originId = none)
    (hsub : lookupSub opts.importIdMap objects[i] = some e)
    (homit : e.omitOriginId = false) :
    ((sentDocs opts objects)[i]?).map (fun d => (d.id, d.originId))
      = some (e.id, some objects[i].id) := by
  rw [sentDocs_getElem? opts objects i hi]
  simp [transformObject, hsub, homit, horig]

/-- Witness for C6: fixture object `obj8` (no origin, entry `id-baz`
without `omitOriginId`) is sent as id `id-baz` with origin `id-8`. -/
theorem bare_substitution_assigns_origin_witness :
    ((sentDocs fixtureOptions objs)[7]?).map (fun d => (d.id, d.originId))
      = some ("id-baz", some "id-8") := by
  have h := bare_substitution_assigns_origin objs fixtureOptions 7 (by decide)
    { id := importId8 } (by decide) (by decide) (by decide)
  exact h.trans (by decide)

/-- Claim C5 counterexample: the claim asserts that fixture object
`obj3` (which carries `originId-c` and is covered by the entry
`{id-foo, omitOriginId: true}`) is sent to the store with only the
identifier and `originId` changed and every other field unchanged, i.e.
as the source's `x3 = {...obj3, id: importId3, originId: undefined}`.
The document actually sent is not `x3`: its references are additionally
rewritten through the map (`name-3` gets id `id-foo`). -/
theorem omit_origin_id_counterexample :
    ¬ ((sentDocs fixtureOptions objs)[2]? = some x3) := by decide

/-- Claim C5 as amended: an object carrying an `originId`, covered by a
substitution entry with `omitOriginId = true`, is sent with the entry's
id, no `originId`, its type and attributes unchanged, and its references
passed through the reference-id rewrite (so not necessarily unchanged). -/
theorem omit_origin_id_overrides (objects : List SavedObjectDoc)
    (opts : CreateSavedObjectsOptions) (i : Nat) (hi : i < objects.length)
    (e : IdentitySubstitutionEntry) (s : String)
    (_horig : objects[i].originId = some s)
    (hsub : lookupSub opts.importIdMap objects[i] = some e)
    (homit : e.omitOriginId = true) :
    (sentDocs opts objects)[i]? = some
      { type := objects[i].type
        id := e.id
        attributes := objects[i].attributes
        references := objects[i].references.map (transformReference opts.importIdMap)
        originId := none } := by
  rw [sentDocs_getElem? opts objects i hi]
  simp [transformObject, hsub, homit]

/-- Witness for the amended C5: fixture object `obj3` is sent as
`{multi, id-foo, originId: none}` with its references rewritten. -/
theorem omit_origin_id_overrides_witness :
    (sentDocs fixtureOptions objs)[2]? = some
      { type := "multi"
        id := "id-foo"
        attributes := ""
        references :=
          [ { name := "name-1", type := "other-type", id := "other-id" },
            { name := "name-2", type := "multi", id := "id-1" },
            { name := "name-3", type := "multi", id := "id-foo" } ]
        originId := none } := by
  have h := omit_origin_id_overrides objs fixtureOptions 2 (by decide)
    { id := importId3, omitOriginId := true } "originId-c" (by decide) (by decide) (by decide)
  exact h.trans (by decide)

/-- Claim C2 counterexample: the claim asserts the references of every
batch object are sent to the store verbatim.  On the thirteen-object
fixture the single bulk-create call does not carry the original
reference sequences: the reference to `multi:id-3` is sent with id
`id-foo` (as the source test itself expects in
`getExpectedBulkCreateArgsObjects`). -/
theorem references_verbatim_counterexample :
    ¬ ((createSavedObjects objs [] fixtureOptions).calls.map
          (fun c => c.objects.map (fun d => d.references))
        = [objs.map (fun o => o.references)]) := by decide

/-- Claim C2 as amended: the transform phase forwards each object's
references in order with every reference's name and type unchanged; a
reference whose `type:id` has a substitution entry has its id rewritten
to the entry's new id, and a reference without an entry passes through
verbatim. -/
theorem references_rewritten_via_map (objects : List SavedObjectDoc)
    (errors : List SavedObjectsImportError) (opts : CreateSavedObjectsOptions)
    (hne : objects ≠ []) (hunres : ∀ e ∈ errors, isResolvableError e = false) :
    (createSavedObjects objects errors opts).calls.map
        (fun c => c.objects.map (fun d => d.references))
      = [objects.map (fun o => o.references.map (transformReference opts.importIdMap))]
    ∧ ∀ r : Reference,
        (transformReference opts.importIdMap r).name = r.name
        ∧ (transformReference opts.importIdMap r).type = r.type
        ∧ (transformReference opts.importIdMap r).id
            = (match (opts.importIdMap).lookup (lookupKey r.type r.id) with
               | some e => e.id
               | none => r.id) := by
  constructor
  · rw [createSavedObjects_proceeds objects errors opts hne hunres]
    simp [sentDocs, transformObject_references]
  · intro r
    cases hl : (opts.importIdMap).lookup (lookupKey r.type r.id) <;>
      simp [transformReference, lookupSub, hl]

/-- Witness for the amended C2: on the fixture, the references sent are
exactly the originals mapped through the reference rewrite. -/
theorem references_rewritten_via_map_witness :
    (createSavedObjects objs [] fixtureOptions).calls.map
        (fun c => c.objects.map (fun d => d.references))
      = [objs.map (fun o => o.references.map (transformReference importIdMap))] := by
  have h := references_rewritten_via_map objs [] fixtureOptions (by decide) (by decide)
  exact h.1.trans (by decide)

/-- Claim C3: under the store contract (one outcome per document,
positionally aligned, each echoing the identifier actually used and
carrying no `destinationId` of its own) and the data-model invariant
that a substitution entry targets a different identifier than the
caller-supplied one, every remapped outcome of a proceeding run carries
the original import identifier; it carries no `destinationId` when the
object had no substitution entry, and `destinationId` equal to the
substituted identifier used in creation when it had one.  The returned
result is exactly the partition of these remapped outcomes. -/
theorem result_remap_round_trip (objects : List SavedObjectDoc)
    (errors : List SavedObjectsImportError) (opts : CreateSavedObjectsOptions)
    (hne : objects ≠ [])
    (hunres : ∀ e ∈ errors, isResolvableError e = false)
    (hstore : ∀ j, j < objects.length →
      ((storeResponse opts objects)[j]?).map (fun oc => (oc.id, oc.destinationId))
        = ((sentDocs opts objects)[j]?).map (fun d => (d.id, (none : Option String))))
    (i : Nat) (hi : i < objects.length)
    (hinv : ∀ e, lookupSub opts.importIdMap objects[i] = some e → e.id ≠ objects[i].id) :
    (createSavedObjects objects errors opts).result
        = { createdObjects := (remappedResults opts objects).filter (fun o => o.error.isNone)
            errors := classifyErrors (remappedResults opts objects) }
      ∧ ((remappedResults opts objects)[i]?).map (fun r => (r.id, r.destinationId))
        = some (objects[i].id,
            (match lookupSub opts.importIdMap objects[i] with
             | some e => some e.id
             | none => none)) := by
  constructor
  · rw [createSavedObjects_proceeds objects errors opts hne hunres]
  · have hd := sentDocs_getElem? opts objects i hi
    have hs := hstore i hi
    rw [hd] at hs
    obtain ⟨oc, hoc, hpair⟩ := Option.map_eq_some'.mp hs
    have h1 : oc.id = (transformObject opts.importIdMap objects[i]).id :=
      congrArg Prod.fst hpair
    have h2 : oc.destinationId = none :=
      congrArg Prod.snd hpair
    have hrm : (remappedResults opts objects)[i]?
        = some (remapOutcome objects[i] (transformObject opts.importIdMap objects[i]).id oc) :=
      remap_getElem? objects (sentDocs opts objects) (storeResponse opts objects) i
        objects[i] (transformObject opts.importIdMap objects[i]) oc
        (List.getElem?_eq_getElem hi) hd hoc
    rw [hrm]
    cases hl : lookupSub opts.importIdMap objects[i] with
    | none =>
      have hid : (transformObject opts.importIdMap objects[i]).id = objects[i].id := by
        simp [transformObject, hl]
      simp [remapOutcome, hid, h1, h2]
    | some e =>
      have hid : (transformObject opts.importIdMap objects[i]).id = e.id := by
        simp [transformObject, hl]
      have hneq := hinv e hl
      simp [remapOutcome, hid, hneq]

/-- Witness for C3: on the fixture run, the result is the partition of
the remapped outcomes and the remapped outcome of covered object `obj3`
carries its original id `id-3` and destination `id-foo`. -/
theorem result_remap_round_trip_witness :
    ((createSavedObjects objs [] fixtureOptions).result
        = { createdObjects := (remappedResults fixtureOptions objs).filter
              (fun o => o.error.isNone)
            errors := classifyErrors (remappedResults fixtureOptions objs) })
      ∧ ((remappedResults fixtureOptions objs)[2]?).map (fun r => (r.id, r.destinationId))
        = some ("id-3", some "id-foo") := by
  have h := result_remap_round_trip objs [] fixtureOptions (by decide) (by decide)
    (by decide) 2 (by decide) (by decide)
  exact ⟨h.1, h.2.trans (by decide)⟩

/-- Claim C9 counterexample: the claim asserts the end-to-end fixture
scenario yields five created objects and eight error entries; the run
actually yields four created objects and nine error entries (the mocked
store response contains four successes, seven simple conflicts and two
unresolvable conflicts). -/
theorem end_to_end_scenario_counterexample :
    ¬ ((createSavedObjects objs [] fixtureOptions).result.createdObjects.length = 5
       ∧ (createSavedObjects objs [] fixtureOptions).result.errors.length = 8) := by decide

/-- Claim C9 as amended: on the thirteen-object two-type fixture with
three covered objects, where the mocked store returns four successes,
seven simple conflicts and two unresolvable conflicts, `createdObjects`
is exactly the four successes with original identifiers, and `errors`
is exactly nine records, each carrying the original identifier, the
conflict payload of the identifier the store reported (with the
unresolvable marker exactly for the two unresolvable conflicts), and a
`destinationId` exactly for the three covered objects. -/
theorem end_to_end_scenario :
    (createSavedObjects objs [] fixtureOptions).result.createdObjects
        = [resultMockSuccess obj1 none, resultMockSuccess obj6 none,
           resultMockSuccess obj10 none, resultMockSuccess obj12 none]
      ∧ (createSavedObjects objs [] fixtureOptions).result.errors
        = [ { type := "multi", id := "id-2",
              error := conflictPayload "multi" "id-2", destinationId := none },
            { type := "multi", id := "id-3",
              error := conflictPayload "multi" "id-foo", destinationId := some "id-foo" },
            { type := "multi", id := "id-4",
              error := conflictPayload "multi" "id-bar", destinationId := some "id-bar" },
            { type := "multi", id := "id-5",
              error := unresolvablePayload "multi" "id-5", destinationId := none },
            { type := "multi", id := "id-7",
              error := conflictPayload "multi" "id-7", destinationId := none },
            { type := "multi", id := "id-8",
              error := conflictPayload "multi" "id-baz", destinationId := some "id-baz" },
            { type := "multi", id := "id-9",
              error := unresolvablePayload "multi" "id-9", destinationId := none },
            { type := "other", id := "id-11",
              error := conflictPayload "other" "id-11", destinationId := none },
            { type := "other", id := "id-13",
              error := conflictPayload "other" "id-13", destinationId := none } ] := by
  decide

/-- Claim C10: an `originId` equal to the empty string is treated as
absent at the public interface.  The source object builder
`createObject` produces the same object for an empty-string origin as
for none, and the source's expected-bulk-create-args helper attaches no
`originId` field to the document sent to the store for an object whose
`originId` is the empty string. -/
theorem empty_string_origin_treated_as_absent :
    (∀ type id : String, createObject type id (some "") = createObject type id none)
    ∧ ∀ (type id attrs : String) (refs : List Reference),
        (getExpectedBulkCreateArgsObjects
            [{ type := type, id := id, attributes := attrs,
               references := refs, originId := some "" }] false).map
          (fun d => d.originId) = [none] := by
  constructor
  · intro t i
    rfl
  · intro t i a rs
    simp [getExpectedBulkCreateArgsObjects, strTruthy]

end SavedObjectsImport
